import Mathlib

/-!
Verification of `vis_bandwidth.py`, a DRAM/PMM/CXL bandwidth visualizer.

The development shallowly embeds the data pipeline of `parse_bandwidth_csv`:

* the input CSV, *after* `pd.read_csv(header=[0,1])` has produced a two-level
  column header and a rectangular table of cells, is a `CsvInput`: the second
  level of the first two header columns (`cols[0][1]`, `cols[1][1]`), the
  remaining (socket, metric) column pairs, and the data rows.  A missing cell
  (pandas NaN) is `Option.none`;
* the external datetime parser `pd.to_datetime(..., errors='coerce')` is a
  parameter `pdt : String → Option Nat` (NaT is `none`, instants are `Nat`);
  `demoParse` is a concrete stand-in used on concrete inputs;
* numeric values are `ℚ`; `parseDecimal` models `pd.to_numeric` on the plain
  decimal literals the tool's CSVs contain (failures are `none`, which the
  code's `fillna(0)` / NaN-skipping `sum` turn into `0`);
* each `plt.plot` call is recorded as a `Line` (label, color, linestyle,
  y-values); the fatal `sys.exit(1)` paths are `Except.error` outcomes.
-/

set_option autoImplicit false

namespace VisBandwidth

/-! ## String helpers (models of the Python string operations used). -/

/-- Model of Python's `pat in s` substring test. -/
def subOccurs (pat : List Char) : List Char → Bool
  | [] => pat.isEmpty
  | c :: rest => pat.isPrefixOf (c :: rest) || subOccurs pat rest

/-- `containsSub s pat` models Python's `pat in s` on strings. -/
def containsSub (s pat : String) : Bool :=
  subOccurs pat.data s.data

/-- Model of Python's `s.startswith(pat)`. -/
def strStartsWith (s pat : String) : Bool :=
  pat.data.isPrefixOf s.data

/-- Model of Python's `str.strip()` / pandas `.str.strip()`:
remove leading and trailing whitespace. -/
def stripChars (s : String) : String :=
  ⟨((s.data.dropWhile Char.isWhitespace).reverse.dropWhile Char.isWhitespace).reverse⟩

/-! ## Numeric coercion (`to_numeric_safe`, lines 65-68 of the source). -/

/-- Accumulate a digit list into a natural number (caller guarantees digits). -/
def digitsToNat : List Char → Nat → Nat
  | [], acc => acc
  | c :: cs, acc => digitsToNat cs (acc * 10 + (c.toNat - 48))

/-- Exact rational addition written with `mkRat` so that it evaluates in the
kernel (the library's `Rat.add` is `@[irreducible]`); `qAdd_eq` states it is
ordinary addition on `ℚ`. -/
def qAdd (a b : ℚ) : ℚ := mkRat (a.num * b.den + b.num * a.den) (a.den * b.den)

/-- Kernel-computable sum of a list of rationals; `qSum_eq` states it is
`List.sum`.  Models the NaN-free case of a pandas `Series.sum()`. -/
def qSum : List ℚ → ℚ
  | [] => 0
  | x :: xs => qAdd x (qSum xs)

/-- Model of `pd.to_numeric(·, errors='coerce')` on the finite decimal
literals (optional sign, digits, optional fractional part) that bandwidth
CSV cells contain; anything else coerces to `none` (pandas NaN).  The value
of `ip.fp` is the exact rational `(ip * 10^|fp| + fp) / 10^|fp|`. -/
def parseDecimal (s : String) : Option ℚ :=
  let cs := s.data
  let signAndRest : Bool × List Char :=
    match cs with
    | '-' :: rest => (true, rest)
    | '+' :: rest => (false, rest)
    | _ => (false, cs)
  let neg := signAndRest.1
  let body := signAndRest.2
  let ip := body.takeWhile Char.isDigit
  let rest := body.dropWhile Char.isDigit
  let val : Option ℚ :=
    match rest with
    | [] => if ip.isEmpty then none else some (mkRat (digitsToNat ip 0) 1)
    | '.' :: fp =>
      if fp.all Char.isDigit && !(ip.isEmpty && fp.isEmpty) then
        some (mkRat (digitsToNat ip 0 * 10 ^ fp.length + digitsToNat fp 0) (10 ^ fp.length))
      else none
    | _ => none
  val.map (fun v => if neg then -v else v)

/-- Coercion of one table cell, as in line 67 of the source:
`pd.to_numeric(cell.astype(str).str.strip(), errors='coerce').fillna(0)`.
A missing cell (NaN) or a parse failure becomes `0`. -/
def coerceCell (cell : Option String) : ℚ :=
  match cell with
  | none => 0
  | some s => (parseDecimal (stripChars s)).getD 0

/-- A socket's sub-table `skt_df`, column-major: metric name with its cells. -/
abbrev SktCols := List (String × List (Option String))

/-- Model of `to_numeric_safe` (lines 65-68): if the named column is present,
coerce its cells; otherwise an all-zero series over the index (`n` is the
length of `plot_data.index`). -/
def to_numeric_safe (sktCols : SktCols) (n : Nat) (colName : String) : List ℚ :=
  match sktCols.lookup colName with
  | some cells => cells.map coerceCell
  | none => List.replicate n 0

theorem qAdd_eq (a b : ℚ) : qAdd a b = a + b := (Rat.add_def' a b).symm

theorem qSum_eq (l : List ℚ) : qSum l = l.sum := by
  induction l with
  | nil => rfl
  | cons x xs ih => rw [qSum, qAdd_eq, ih, List.sum_cons]

example : parseDecimal "123.4" = some (mkRat 1234 10) := by decide
example : coerceCell (some " 123.4 ") = mkRat 617 5 := by decide
example : coerceCell (some "N/A") = 0 := by decide
example : coerceCell (some "") = 0 := by decide
example : coerceCell (some "-1") = mkRat (-1) 1 := by decide
example : (0 : ℚ) < mkRat 617 5 := by decide
example : qSum [mkRat 1 2, mkRat 1 2] = 1 := by decide

/-! ## Data model: the CSV after `pd.read_csv(header=[0,1])`. -/

/-- One data row: the first two cells (date, time) and the metric cells
(pandas NaN is `none`), aligned with `CsvInput.metricCols`. -/
structure Row where
  date : String
  time : String
  metrics : List (Option String)
  deriving DecidableEq, Repr

/-- The table `pd.read_csv(filepath, header=[0,1])` produced: the second
header level of the first two columns (`cols[0][1]`, `cols[1][1]`), the
remaining two-level (socket, metric) column pairs, and the data rows. -/
structure CsvInput where
  dateHeader : String
  timeHeader : String
  metricCols : List (String × String)
  rows : List Row
  deriving DecidableEq, Repr

/-- The `sys.exit(1)` outcomes of `parse_bandwidth_csv` after the CSV has
been read: bad header (line 30), empty table after cleaning (line 45), no
socket columns (line 50). -/
inductive FatalError where
  | headerFormat
  | noValidData
  | noSockets
  deriving DecidableEq, Repr

/-- Pad or cut a row's metric cells to the table's column count, as the
rectangular pandas frame does (a short row is NaN-padded). -/
def alignMetrics (ncols : Nat) (m : List (Option String)) : List (Option String) :=
  (List.range ncols).map (fun j => m.getD j none)

/-- Line 25 of the source: `'Date' in cols[0][1] and 'Time' in cols[1][1]`. -/
def headerOk (input : CsvInput) : Bool :=
  containsSub input.dateHeader "Date" && containsSub input.timeHeader "Time"

/-- The normalizer (lines 35-38): per row, parse the concatenated
`date ++ " " ++ time` with the external datetime parser `pdt`
(`errors='coerce'`, so failure is `none`/NaT), set the result as the row
index, drop the Info columns, and `dropna(axis=0, how='all')`: keep a row
exactly when not all of its metric cells are missing. -/
def normalize (pdt : String → Option Nat) (input : CsvInput) :
    List (Option Nat × List (Option String)) :=
  (input.rows.map (fun r =>
      (pdt (r.date ++ " " ++ r.time), alignMetrics input.metricCols.length r.metrics))).filter
    (fun p => !(p.2.all Option.isNone))

/-- Insert into a sorted list (ascending lexicographic order). -/
def insertSorted (x : String) : List String → List String
  | [] => [x]
  | y :: ys => if x ≤ y then x :: y :: ys else y :: insertSorted x ys

/-- Insertion sort, the model of Python's `sorted` on strings. -/
def sortStrings : List String → List String
  | [] => []
  | x :: xs => insertSorted x (sortStrings xs)

/-- Line 47: `sorted([s for s in df.columns.get_level_values(0).unique() if
s.startswith('SKT')])`. -/
def detectSockets (metricCols : List (String × String)) : List String :=
  sortStrings (((metricCols.map Prod.fst).dedup).filter (fun s => strStartsWith s "SKT"))

/-- Column `j` of the cleaned table, read off the kept rows. -/
def colCells (kept : List (Option Nat × List (Option String))) (j : Nat) :
    List (Option String) :=
  kept.map (fun p => p.2.getD j none)

/-- `df[skt]` (line 62): the sub-table of the columns whose outer level is
`skt`, keyed by metric name, in header order. -/
def sktTable (metricCols : List (String × String))
    (kept : List (Option Nat × List (Option String))) (skt : String) : SktCols :=
  (metricCols.enum.filter (fun p => p.2.1 == skt)).map
    (fun p => (p.2.2, colCells kept p.1))

/-! ## Series extraction (`plot_data`, lines 63-82). -/

/-- The six derived series of one socket (the columns of `plot_data`). -/
structure PlotData where
  DRAM_Read : List ℚ
  DRAM_Write : List ℚ
  PMM_Read : List ℚ
  PMM_Write : List ℚ
  CXL_Read : List ℚ
  CXL_Write : List ℚ
  deriving DecidableEq, Repr

/-- Row-wise sum across a group of coerced columns (lines 79-80):
`apply(pd.to_numeric(·.astype(str).str.strip(), errors='coerce')).sum(axis=1)`
— the NaN-skipping `sum(axis=1)` makes each unparsable cell contribute `0`,
exactly `coerceCell`, and the trailing `fillna(0)` is then a no-op. -/
def sumCols (cols : List (List (Option String))) (n : Nat) : List ℚ :=
  (List.range n).map (fun i => qSum (cols.map (fun cells => coerceCell (cells.getD i none))))

/-- Lines 63-82: build the six series of one socket.  `n` is the length of
the cleaned table's index.  An empty CXL group is the scalar `0` in the
source, which broadcasts to an all-zero column when assigned into
`plot_data`. -/
def buildPlotData (sktCols : SktCols) (n : Nat) : PlotData :=
  let cxl_cols := sktCols.filter (fun c => strStartsWith c.1 "CXL.")
  let cxl_read_cols := cxl_cols.filter
    (fun c => containsSub c.1 "Read" || containsSub c.1 "dv->hst")
  let cxl_write_cols := cxl_cols.filter
    (fun c => containsSub c.1 "Write" || containsSub c.1 "hst->dv")
  { DRAM_Read := to_numeric_safe sktCols n "Mem Read (MB/s)"
    DRAM_Write := to_numeric_safe sktCols n "Mem Write (MB/s)"
    PMM_Read := to_numeric_safe sktCols n "PMM_Read (MB/s)"
    PMM_Write := to_numeric_safe sktCols n "PMM_Write (MB/s)"
    CXL_Read := if cxl_read_cols.isEmpty then List.replicate n 0
      else sumCols (cxl_read_cols.map Prod.snd) n
    CXL_Write := if cxl_write_cols.isEmpty then List.replicate n 0
      else sumCols (cxl_write_cols.map Prod.snd) n }

/-! ## Chart building (lines 84-101). -/

/-- One `plt.plot(...)` call: its label, color, linestyle and y-values. -/
structure Line where
  label : String
  color : String
  linestyle : String
  ys : List ℚ
  deriving DecidableEq, Repr

/-- Index-aligned addition of two series (the pandas `+` on equal indices). -/
def zipAdd (a b : List ℚ) : List ℚ := List.zipWith qAdd a b

/-- Lines 87-101: the `plt.plot` calls made for one socket, in order.  The
`total` branch runs only on the exact mode string `"total"`; every other
mode takes the read/write branch.  PMM and CXL lines are gated by
`read.sum() + write.sum() > 0`. -/
def socketLines (mode skt : String) (d : PlotData) : List Line :=
  if mode = "total" then
    [⟨skt ++ " DRAM Total", "tab:red", "solid", zipAdd d.DRAM_Read d.DRAM_Write⟩] ++
    (if 0 < qAdd (qSum d.PMM_Read) (qSum d.PMM_Write) then
      [⟨skt ++ " PMM Total", "tab:orange", "solid", zipAdd d.PMM_Read d.PMM_Write⟩]
     else []) ++
    (if 0 < qAdd (qSum d.CXL_Read) (qSum d.CXL_Write) then
      [⟨skt ++ " CXL Total", "tab:green", "solid", zipAdd d.CXL_Read d.CXL_Write⟩]
     else [])
  else
    [⟨skt ++ " DRAM Read", "tab:red", "-", d.DRAM_Read⟩,
     ⟨skt ++ " DRAM Write", "tab:red", "--", d.DRAM_Write⟩] ++
    (if 0 < qAdd (qSum d.PMM_Read) (qSum d.PMM_Write) then
      [⟨skt ++ " PMM Read", "tab:orange", "-", d.PMM_Read⟩,
       ⟨skt ++ " PMM Write", "tab:orange", "--", d.PMM_Write⟩]
     else []) ++
    (if 0 < qAdd (qSum d.CXL_Read) (qSum d.CXL_Write) then
      [⟨skt ++ " CXL Read", "tab:green", "-", d.CXL_Read⟩,
       ⟨skt ++ " CXL Write", "tab:green", "--", d.CXL_Write⟩]
     else [])

/-- How many lines of a tier (identified by its fixed color) one socket
contributes to the chart. -/
def tierLineCount (color mode skt : String) (d : PlotData) : Nat :=
  (socketLines mode skt d).countP (fun l => l.color == color)

/-- Lines 59-82: `all_skt_data`, the six derived series per detected socket. -/
def all_skt_data (pdt : String → Option Nat) (input : CsvInput) :
    List (String × PlotData) :=
  let kept := normalize pdt input
  (detectSockets input.metricCols).map
    (fun skt => (skt, buildPlotData (sktTable input.metricCols kept skt) kept.length))

/-- The whole of `parse_bandwidth_csv` after `pd.read_csv` has succeeded:
header validation (lines 25-30), timestamp index and cleaning (lines 35-45),
socket detection (lines 47-50), then the per-socket `plt.plot` calls in
sorted socket order.  Each `sys.exit(1)` is an `Except.error`. -/
def parse_bandwidth_csv (pdt : String → Option Nat) (input : CsvInput)
    (mode : String) : Except FatalError (List Line) :=
  if headerOk input then
    let kept := normalize pdt input
    if kept.isEmpty then .error .noValidData
    else
      let sockets := detectSockets input.metricCols
      if sockets.isEmpty then .error .noSockets
      else .ok (((all_skt_data pdt input).map
        (fun p => socketLines mode p.1 p.2)).flatten)
  else .error .headerFormat

/-- The CLI's `choices=['rw', 'total']` for `-m`/`--mode` (line 122). -/
def cliModeChoices : List String := ["rw", "total"]

instance {ε α : Type} [DecidableEq ε] [DecidableEq α] : DecidableEq (Except ε α) :=
  fun a b =>
    match a, b with
    | .ok x, .ok y => decidable_of_iff (x = y) (by simp)
    | .error x, .error y => decidable_of_iff (x = y) (by simp)
    | .ok _, .error _ => isFalse (fun h => Except.noConfusion h)
    | .error _, .ok _ => isFalse (fun h => Except.noConfusion h)

/-! ## Concrete inputs used by witnesses and counterexamples. -/

/-- Concrete stand-in for the external datetime parser `pd.to_datetime`:
recognises two fixed date+time strings, fails (NaT) on everything else. -/
def demoParse (s : String) : Option Nat :=
  if s = "2024-01-01 10:00:00" then some 0
  else if s = "2024-01-01 10:00:01" then some 1
  else none

/-- The spec's end-to-end example: one socket, DRAM read/write columns, two
valid rows `100,50` and `200,100`. -/
def exEnd : CsvInput :=
  { dateHeader := "Date", timeHeader := "Time",
    metricCols := [("SKT0", "Mem Read (MB/s)"), ("SKT0", "Mem Write (MB/s)")],
    rows := [⟨"2024-01-01", "10:00:00", [some "100", some "50"]⟩,
             ⟨"2024-01-01", "10:00:01", [some "200", some "100"]⟩] }

/-- A file whose only row has an unparseable date/time but a non-missing
metric value. -/
def exBadTs : CsvInput :=
  { dateHeader := "Date", timeHeader := "Time",
    metricCols := [("SKT0", "Mem Read (MB/s)")],
    rows := [⟨"garbage", "xx", [some "100"]⟩] }

/-- A file with two rows carrying the same timestamp. -/
def exDup : CsvInput :=
  { dateHeader := "Date", timeHeader := "Time",
    metricCols := [("SKT0", "Mem Read (MB/s)")],
    rows := [⟨"2024-01-01", "10:00:00", [some "1"]⟩,
             ⟨"2024-01-01", "10:00:00", [some "2"]⟩] }

/-- A file whose first two header columns are not Date/Time markers. -/
def exBadHeader : CsvInput :=
  { dateHeader := "Foo", timeHeader := "Bar",
    metricCols := [("SKT0", "Mem Read (MB/s)")],
    rows := [⟨"2024-01-01", "10:00:00", [some "1"]⟩] }

example : normalize demoParse exBadTs = [(none, [some "100"])] := by decide
example : (normalize demoParse exEnd).length = 2 := by decide
example : detectSockets exEnd.metricCols = ["SKT0"] := by decide
example :
    (buildPlotData (sktTable exEnd.metricCols (normalize demoParse exEnd) "SKT0")
      2).DRAM_Read = [100, 200].map (fun n => mkRat n 1) := by decide

/-! ## Helper lemmas. -/

/-- Strict order on two index entries: both timestamps present and increasing
(a missing timestamp is never ordered). -/
def tsLt : Option Nat → Option Nat → Bool
  | some x, some y => decide (x < y)
  | _, _ => false

/-- A socket's PMM line count, in either branch, is `1`/`2` when the summed
PMM read+write values are strictly positive and `0` otherwise. -/
theorem pmmCount_eq (mode skt : String) (d : PlotData) :
    tierLineCount "tab:orange" mode skt d =
      if 0 < qAdd (qSum d.PMM_Read) (qSum d.PMM_Write) then
        (if mode = "total" then 1 else 2) else 0 := by
  unfold tierLineCount socketLines
  by_cases hm : mode = "total" <;>
  by_cases hp : 0 < qAdd (qSum d.PMM_Read) (qSum d.PMM_Write) <;>
  by_cases hc : 0 < qAdd (qSum d.CXL_Read) (qSum d.CXL_Write) <;>
    simp [hm, hp, hc, List.countP_append, List.countP_cons]

/-- A socket's CXL line count, in either branch, is `1`/`2` when the summed
CXL read+write values are strictly positive and `0` otherwise. -/
theorem cxlCount_eq (mode skt : String) (d : PlotData) :
    tierLineCount "tab:green" mode skt d =
      if 0 < qAdd (qSum d.CXL_Read) (qSum d.CXL_Write) then
        (if mode = "total" then 1 else 2) else 0 := by
  unfold tierLineCount socketLines
  by_cases hm : mode = "total" <;>
  by_cases hp : 0 < qAdd (qSum d.PMM_Read) (qSum d.PMM_Write) <;>
  by_cases hc : 0 < qAdd (qSum d.CXL_Read) (qSum d.CXL_Write) <;>
    simp [hm, hp, hc, List.countP_append, List.countP_cons]

/-- Any mode string other than `"total"` takes the read/write plotting
branch. -/
theorem socketLines_mode_ne_total (mode skt : String) (d : PlotData)
    (h : mode ≠ "total") : socketLines mode skt d = socketLines "rw" skt d := by
  unfold socketLines
  rw [if_neg h, if_neg (show ("rw" : String) ≠ "total" from by decide)]

/-! ## The claims. -/

/-- Claim C5: numeric coercion of a metric cell trims surrounding whitespace
then parses: `" 123.4 "` coerces to the number `123.4` (`= 1234/10`), and
`"N/A"` and the empty string coerce to `0`. -/
theorem C5_numeric_coercion :
    to_numeric_safe [("Mem Read (MB/s)", [some " 123.4 ", some "N/A", some ""])] 3
      "Mem Read (MB/s)" = [(1234 : ℚ) / 10, 0, 0] := by
  have h : to_numeric_safe [("Mem Read (MB/s)", [some " 123.4 ", some "N/A", some ""])] 3
      "Mem Read (MB/s)" = [mkRat 1234 10, 0, 0] := by decide
  rw [h, Rat.mkRat_eq_div]
  norm_num

/-- Claim C8: if the first two header columns lack the `Date` and `Time`
markers (substring match), `parse_bandwidth_csv` terminates fatally with the
header-format error, and no chart lines are produced. -/
theorem C8_header_fatal (pdt : String → Option Nat) (input : CsvInput)
    (mode : String) (h : headerOk input = false) :
    parse_bandwidth_csv pdt input mode = .error .headerFormat := by
  simp [parse_bandwidth_csv, h]

/-- Witness for C8 at the concrete malformed-header file `exBadHeader`. -/
theorem C8_header_fatal_witness :
    parse_bandwidth_csv demoParse exBadHeader "rw" = .error .headerFormat :=
  C8_header_fatal demoParse exBadHeader "rw" (by decide)

/-- Claim C10: for every mode string other than exactly `"total"` the chart
builder behaves identically to mode `"rw"`, and only the CLI layer restricts
the mode to `{rw, total}`. -/
theorem C10_mode_equivalence (pdt : String → Option Nat) (input : CsvInput)
    (mode : String) (h : mode ≠ "total") :
    parse_bandwidth_csv pdt input mode = parse_bandwidth_csv pdt input "rw" ∧
    cliModeChoices = ["rw", "total"] := by
  refine ⟨?_, rfl⟩
  have hs : ∀ (skt : String) (d : PlotData),
      socketLines mode skt d = socketLines "rw" skt d :=
    fun skt d => socketLines_mode_ne_total mode skt d h
  unfold parse_bandwidth_csv
  simp only [hs]

/-- Witness for C10 at the concrete mode string `"foo"` and file `exEnd`. -/
theorem C10_mode_equivalence_witness :
    parse_bandwidth_csv demoParse exEnd "foo" = parse_bandwidth_csv demoParse exEnd "rw" ∧
    cliModeChoices = ["rw", "total"] :=
  C10_mode_equivalence demoParse exEnd "foo" (by decide)

/-- Claim C3 (as stated, refuted): a socket whose PMM read column holds the
nonzero value `-1` (so it has nonzero PMM data) gets `0` PMM lines in
`total` mode, not exactly `1`: the gate is positivity of the sum, not
presence of nonzero data. -/
theorem C3_counterexample :
    (buildPlotData [("PMM_Read (MB/s)", [some "-1"])] 1).PMM_Read ≠
      List.replicate 1 0 ∧
    tierLineCount "tab:orange" "total" "SKT0"
      (buildPlotData [("PMM_Read (MB/s)", [some "-1"])] 1) = 0 ∧
    tierLineCount "tab:orange" "rw" "SKT0"
      (buildPlotData [("PMM_Read (MB/s)", [some "-1"])] 1) = 0 := by
  refine ⟨by decide, by decide, by decide⟩

/-- Claim C3 (amended): for every socket and any mode, the number of PMM
lines plotted is `1` in `total` mode and `2` otherwise when the sum of the
PMM read and write series is strictly positive, and `0` otherwise.  In
particular both all-zero PMM columns (sum `0`) and nonzero PMM data with a
nonpositive sum produce no PMM line in either mode. -/
theorem C3_amended_pmm_gating (mode skt : String) (d : PlotData) :
    tierLineCount "tab:orange" mode skt d =
      if 0 < qSum d.PMM_Read + qSum d.PMM_Write then
        (if mode = "total" then 1 else 2) else 0 := by
  rw [pmmCount_eq, qAdd_eq]

/-- Claim C9: PMM and CXL tier lines are plotted (in either mode) if and
only if the arithmetic sum of that tier's read and write series over the
whole range is strictly positive; nonzero data whose sum is zero or
negative produces no line. -/
theorem C9_positivity_gating (mode skt : String) (d : PlotData) :
    (tierLineCount "tab:orange" mode skt d ≠ 0 ↔
      0 < qSum d.PMM_Read + qSum d.PMM_Write) ∧
    (tierLineCount "tab:green" mode skt d ≠ 0 ↔
      0 < qSum d.CXL_Read + qSum d.CXL_Write) := by
  constructor
  · rw [pmmCount_eq, qAdd_eq]
    split
    · simp only [iff_true, *]
      split <;> simp
    · simp [*]
  · rw [cxlCount_eq, qAdd_eq]
    split
    · simp only [iff_true, *]
      split <;> simp
    · simp [*]

/-- Claim C1 (as stated, refuted): in `exBadTs` the only row's date+time
fails to parse, yet the row is not dropped — the normalizer's output
contains a row with a missing timestamp, because `dropna(how='all')` looks
only at the metric cells. -/
theorem C1_counterexample :
    ¬ (∀ p ∈ normalize demoParse exBadTs, p.1.isSome = true) := by decide

/-- Claim C1 (amended): the normalizer drops a row exactly when all its
metric cells are missing.  Every output row has at least one non-missing
metric cell, and every input row with a non-missing metric cell survives —
with its parsed timestamp if the concatenated date+time parses, and with a
missing timestamp otherwise. -/
theorem C1_amended_row_dropping (pdt : String → Option Nat) (input : CsvInput) :
    (∀ p ∈ normalize pdt input, p.2.all Option.isNone = false) ∧
    (∀ r ∈ input.rows,
      (alignMetrics input.metricCols.length r.metrics).all Option.isNone = false →
      (pdt (r.date ++ " " ++ r.time), alignMetrics input.metricCols.length r.metrics)
        ∈ normalize pdt input) := by
  constructor
  · intro p hp
    unfold normalize at hp
    have := (List.mem_filter.mp hp).2
    simpa using this
  · intro r hr hm
    unfold normalize
    refine List.mem_filter.mpr ⟨List.mem_map.mpr ⟨r, hr, rfl⟩, ?_⟩
    simpa using hm

/-- Witness for C1 (amended) at the concrete file `exBadTs`: its unparseable
row survives, carrying a missing timestamp. -/
theorem C1_amended_row_dropping_witness :
    (demoParse ("garbage" ++ " " ++ "xx"),
      alignMetrics exBadTs.metricCols.length [some "100"]) ∈
      normalize demoParse exBadTs :=
  (C1_amended_row_dropping demoParse exBadTs).2 ⟨"garbage", "xx", [some "100"]⟩
    (by decide) (by decide)

/-- Claim C2 (as stated, refuted): `exDup` is a valid input (well-formed
header, one socket, parseable timestamps) whose two rows carry the same
timestamp; both survive, so the output's row index is not strictly
increasing. -/
theorem C2_counterexample :
    ¬ ((normalize demoParse exDup).map Prod.fst).Pairwise
      (fun a b => tsLt a b = true) := by decide

/-- Claim C2 (amended): the normalizer's output has at most `N` rows and is
a sublist of the input rows (in input order, each with its parsed
timestamp); the code never sorts or deduplicates, so the row index need not
be strictly increasing, though it is strictly increasing whenever the
input's whole timestamp sequence already is. -/
theorem C2_amended_row_order (pdt : String → Option Nat) (input : CsvInput) :
    (normalize pdt input).length ≤ input.rows.length ∧
    (normalize pdt input).Sublist (input.rows.map (fun r =>
      (pdt (r.date ++ " " ++ r.time),
        alignMetrics input.metricCols.length r.metrics))) ∧
    ((input.rows.map (fun r => pdt (r.date ++ " " ++ r.time))).Pairwise
        (fun a b => tsLt a b = true) →
      ((normalize pdt input).map Prod.fst).Pairwise
        (fun a b => tsLt a b = true)) := by
  refine ⟨?_, List.filter_sublist _, ?_⟩
  · calc (normalize pdt input).length
        ≤ (input.rows.map (fun r =>
            (pdt (r.date ++ " " ++ r.time),
              alignMetrics input.metricCols.length r.metrics))).length :=
          (List.filter_sublist _).length_le
      _ = input.rows.length := List.length_map _ _
  · intro h
    have hsub := (List.filter_sublist (l :=
      input.rows.map (fun r =>
        (pdt (r.date ++ " " ++ r.time),
          alignMetrics input.metricCols.length r.metrics)))
      (p := fun p => !(p.2.all Option.isNone))).map Prod.fst
    rw [List.map_map] at hsub
    exact List.Pairwise.sublist hsub h

/-- Witness for C2 (amended) at the concrete file `exEnd`, whose surviving
timestamps are strictly increasing. -/
theorem C2_amended_row_order_witness :
    (normalize demoParse exEnd).length ≤ exEnd.rows.length ∧
    ((normalize demoParse exEnd).map Prod.fst).Pairwise
      (fun a b => tsLt a b = true) :=
  ⟨(C2_amended_row_order demoParse exEnd).1,
   (C2_amended_row_order demoParse exEnd).2.2 (by decide)⟩

/-- Claim C4 (as stated, refuted): in `exBadTs` no row survives timestamp
parsing (the only timestamp is unparseable), yet the program does not
terminate fatally: the empty-table check looks at metric cells, not
timestamps, so the run proceeds through socket detection and plots DRAM
lines. -/
theorem C4_counterexample :
    (normalize demoParse exBadTs).all (fun p => p.1.isNone) = true ∧
    normalize demoParse exBadTs ≠ [] ∧
    parse_bandwidth_csv demoParse exBadTs "rw" =
      .ok [⟨"SKT0 DRAM Read", "tab:red", "-", [mkRat 100 1]⟩,
           ⟨"SKT0 DRAM Write", "tab:red", "--", [0]⟩] := by
  refine ⟨by decide, by decide, by decide⟩

/-- Claim C4 (amended): the run aborts with the no-valid-data error exactly
when the header is well formed and the cleaned table is empty, and the
cleaned table is empty exactly when every data row has all metric cells
missing; rows whose timestamps fail to parse but that carry metric data do
not trigger the abort. -/
theorem C4_amended_empty_fatal (pdt : String → Option Nat) (input : CsvInput)
    (mode : String) :
    (parse_bandwidth_csv pdt input mode = .error .noValidData ↔
      headerOk input = true ∧ normalize pdt input = []) ∧
    (normalize pdt input = [] ↔
      ∀ r ∈ input.rows,
        (alignMetrics input.metricCols.length r.metrics).all Option.isNone = true) := by
  constructor
  · unfold parse_bandwidth_csv
    by_cases hh : headerOk input
    · by_cases he : (normalize pdt input).isEmpty
      · simp [hh, he, List.isEmpty_iff.mp he]
      · have hne : normalize pdt input ≠ [] := by
          simpa [List.isEmpty_iff] using he
        by_cases hs : (detectSockets input.metricCols).isEmpty <;>
          simp [hh, he, hs, hne]
    · simp [hh]
  · unfold normalize
    rw [List.filter_eq_nil_iff]
    constructor
    · intro h r hr
      simpa using h _ (List.mem_map.mpr ⟨r, hr, rfl⟩)
    · intro h p hp
      obtain ⟨r, hr, rfl⟩ := List.mem_map.mp hp
      simpa using h r hr

/-- Claim C6: a direct metric column absent from the socket's columns yields
an all-zero series over the index, and a socket with no CXL columns at all
yields all-zero CXL read and write series of the same length. -/
theorem C6_missing_sources_zero (sktCols : SktCols) (n : Nat) (name : String)
    (habs : sktCols.lookup name = none)
    (hcxl : ∀ c ∈ sktCols, strStartsWith c.1 "CXL." = false) :
    to_numeric_safe sktCols n name = List.replicate n 0 ∧
    (buildPlotData sktCols n).CXL_Read = List.replicate n 0 ∧
    (buildPlotData sktCols n).CXL_Write = List.replicate n 0 := by
  have hnil : sktCols.filter (fun c => strStartsWith c.1 "CXL.") = [] :=
    List.filter_eq_nil_iff.mpr (fun c hc => by simp [hcxl c hc])
  refine ⟨?_, ?_, ?_⟩
  · unfold to_numeric_safe
    rw [habs]
  · simp only [buildPlotData]
    rw [hnil]
    simp
  · simp only [buildPlotData]
    rw [hnil]
    simp

/-- Witness for C6 at a concrete socket table having neither the PMM read
column nor any CXL column. -/
theorem C6_missing_sources_zero_witness :
    to_numeric_safe [("Mem Read (MB/s)", [some "1", some "2"])] 2
      "PMM_Read (MB/s)" = List.replicate 2 0 ∧
    (buildPlotData [("Mem Read (MB/s)", [some "1", some "2"])] 2).CXL_Read =
      List.replicate 2 0 ∧
    (buildPlotData [("Mem Read (MB/s)", [some "1", some "2"])] 2).CXL_Write =
      List.replicate 2 0 :=
  C6_missing_sources_zero [("Mem Read (MB/s)", [some "1", some "2"])] 2
    "PMM_Read (MB/s)" (by decide) (by decide)

/-- A `lookup` hit in a table all of whose columns have length `n` returns a
column of length `n`. -/
theorem lookup_length_of_all {l : SktCols} {k : String}
    {cells : List (Option String)} (n : Nat)
    (hall : ∀ e ∈ l, e.2.length = n) (h : l.lookup k = some cells) :
    cells.length = n := by
  induction l with
  | nil => simp [List.lookup] at h
  | cons p rest ih =>
    obtain ⟨a, b⟩ := p
    cases hk : (k == a) with
    | true =>
      simp [List.lookup, hk] at h
      rw [← h]
      exact hall (a, b) (List.mem_cons_self _ _)
    | false =>
      simp [List.lookup, hk] at h
      exact ih (fun e he => hall e (List.mem_cons_of_mem _ he)) h

/-- Every column of a socket's sub-table has one cell per kept row. -/
theorem sktTable_all_lengths (metricCols : List (String × String))
    (kept : List (Option Nat × List (Option String))) (skt : String) :
    ∀ e ∈ sktTable metricCols kept skt, e.2.length = kept.length := by
  intro e he
  unfold sktTable at he
  obtain ⟨p, hp, rfl⟩ := List.mem_map.mp he
  simp [colCells]

/-- `to_numeric_safe` always returns a series as long as the index. -/
theorem to_numeric_safe_length (sktCols : SktCols) (n : Nat) (name : String)
    (hall : ∀ e ∈ sktCols, e.2.length = n) :
    (to_numeric_safe sktCols n name).length = n := by
  unfold to_numeric_safe
  cases h : sktCols.lookup name with
  | none => simp
  | some cells => simp [lookup_length_of_all n hall h]

/-- A CXL group sum has one entry per index position. -/
theorem sumCols_length (cols : List (List (Option String))) (n : Nat) :
    (sumCols cols n).length = n := by
  simp [sumCols]

/-- All six derived series of `buildPlotData` are as long as the index. -/
theorem buildPlotData_lengths (sktCols : SktCols) (n : Nat)
    (hall : ∀ e ∈ sktCols, e.2.length = n) :
    (buildPlotData sktCols n).DRAM_Read.length = n ∧
    (buildPlotData sktCols n).DRAM_Write.length = n ∧
    (buildPlotData sktCols n).PMM_Read.length = n ∧
    (buildPlotData sktCols n).PMM_Write.length = n ∧
    (buildPlotData sktCols n).CXL_Read.length = n ∧
    (buildPlotData sktCols n).CXL_Write.length = n := by
  refine ⟨?_, ?_, ?_, ?_, ?_, ?_⟩ <;>
    first
    | exact to_numeric_safe_length _ _ _ hall
    | · simp only [buildPlotData]
        split <;> simp [sumCols]

/-- Claim C7: every one of the six derived series of every socket is
indexed by (has one value for each entry of) the same timestamp index as
the socket's source table.  The series are `ℚ`-valued by construction,
reflecting that `fillna(0)` and the NaN-skipping row sum leave no missing
values. -/
theorem C7_index_alignment (pdt : String → Option Nat) (input : CsvInput) :
    ∀ p ∈ all_skt_data pdt input,
      p.2.DRAM_Read.length = (normalize pdt input).length ∧
      p.2.DRAM_Write.length = (normalize pdt input).length ∧
      p.2.PMM_Read.length = (normalize pdt input).length ∧
      p.2.PMM_Write.length = (normalize pdt input).length ∧
      p.2.CXL_Read.length = (normalize pdt input).length ∧
      p.2.CXL_Write.length = (normalize pdt input).length := by
  intro p hp
  unfold all_skt_data at hp
  obtain ⟨skt, hskt, rfl⟩ := List.mem_map.mp hp
  exact buildPlotData_lengths _ _ (sktTable_all_lengths _ _ _)

/-- Witness for C7 at the concrete file `exEnd` and its socket `SKT0`. -/
theorem C7_index_alignment_witness :
    ("SKT0", buildPlotData
        (sktTable exEnd.metricCols (normalize demoParse exEnd) "SKT0")
        (normalize demoParse exEnd).length) ∈ all_skt_data demoParse exEnd ∧
    (buildPlotData (sktTable exEnd.metricCols (normalize demoParse exEnd) "SKT0")
        (normalize demoParse exEnd).length).DRAM_Read.length =
      (normalize demoParse exEnd).length :=
  ⟨by decide,
   (C7_index_alignment demoParse exEnd
      ("SKT0", buildPlotData
        (sktTable exEnd.metricCols (normalize demoParse exEnd) "SKT0")
        (normalize demoParse exEnd).length) (by decide)).1⟩

end VisBandwidth
